import Mathlib

/-!
Shallow embedding of the itm crate's ITM/DWT packet decoder (src/lib.rs).

Modelling conventions:
- Rust u8/u16/u32/usize values are Nat; u32 arithmetic that can wrap
  (the shifts and ors in extract_timestamp) is taken modulo 2^32.
- The incoming BitVec<LocalBits> is a List Bool in Lsb0 order (LocalBits is
  Lsb0 on the little-endian targets the crate runs on): feeding a byte
  appends its bits least-significant first, and loading a byte from the head
  of the buffer reads the first bit as the least significant.
- Rust panics (the two unreachable! arms, reached only for states the pull
  driver never produces) are modelled by Option: none is a panic.
- &mut self methods become functions returning the result together with the
  new state.
-/

/-- Exception action taken by the processor (enum ExceptionAction). -/
inductive ExceptionAction where
  | Entered
  | Exited
  | Returned
deriving DecidableEq, Repr

/-- Exception type of the processor (enum ExceptionType). -/
inductive ExceptionType where
  | Reset
  | Nmi
  | HardFault
  | MemManage
  | BusFault
  | UsageFault
  | SVCall
  | DebugMonitor
  | PendSV
  | SysTick
  | ExternalInterrupt (n : Nat)
deriving DecidableEq, Repr

/-- Type of memory access (enum MemoryAccessType). -/
inductive MemoryAccessType where
  | Read
  | Write
deriving DecidableEq, Repr

/-- Relationship between a local timestamp packet and the corresponding data
packet (enum TimestampDataRelation). -/
inductive TimestampDataRelation where
  | Sync
  | UnknownDelay
  | AssocEventDelay
  | UnknownAssocEventDelay
deriving DecidableEq, Repr

/-- The set of possible packet types that may be decoded (enum TracePacket). -/
inductive TracePacket where
  | Sync
  | Overflow
  | LocalTimestamp1 (ts : Nat) (data_relation : TimestampDataRelation)
  | LocalTimestamp2 (ts : Nat)
  | GlobalTimestamp1 (ts : Nat) (wrap : Bool) (clkch : Bool)
  | GlobalTimestamp2 (ts : Nat)
  | Extension (page : Nat)
  | Instrumentation (port : Nat) (payload : List Nat)
  | EventCounterWrap (cyc fold lsu sleep exc cpi : Bool)
  | ExceptionTrace (exception : ExceptionType) (action : ExceptionAction)
  | PCSample (pc : Option Nat)
  | DataTracePC (comparator : Nat) (pc : Nat)
  | DataTraceAddress (comparator : Nat) (address : Nat)
  | DataTraceValue (comparator : Nat) (access_type : MemoryAccessType) (value : List Nat)
deriving DecidableEq, Repr

/-- Decode errors (enum DecoderError). -/
inductive DecoderError where
  | InvalidHeader (h : Nat)
  | InvalidHardwarePacket (disc_id : Nat) (payload : List Nat)
  | InvalidHardwareDisc (disc_id : Nat) (size : Nat)
  | InvalidInstumentationSize (port : Nat) (expected_size : Nat)
  | InvalidExceptionTrace (exception : Nat) (function : Nat)
  | InvalidPCSampleSize (payload : List Nat)
  | InvalidGTS2Size (payload : List Nat)
  | InvalidSyncSize (count : Nat)
deriving DecidableEq, Repr

/-- The decoder's possible states (enum DecoderState). -/
inductive DecoderState where
  | Header
  | Syncing (count : Nat)
  | Instrumentation (port : Nat) (payload : List Nat) (expected_size : Nat)
  | HardwareSource (disc_id : Nat) (payload : List Nat) (expected_size : Nat)
  | LocalTimestamp (data_relation : TimestampDataRelation) (payload : List Nat)
  | GlobalTimestamp1 (payload : List Nat)
  | GlobalTimestamp2 (payload : List Nat)
deriving DecidableEq, Repr

/-- The decoder (struct Decoder): incoming bit buffer and current state. -/
structure Decoder where
  incoming : List Bool
  state : DecoderState
deriving DecidableEq, Repr

deriving instance DecidableEq for Except

/-- The bits of one byte in Lsb0 order, as appended to the incoming BitVec by
BitVec::from_vec. -/
def byteToBits (b : Nat) : List Bool :=
  (List.range 8).map b.testBit

/-- Load a byte from eight Lsb0-ordered bits, as incoming[0..=7].load::<u8>()
does. The first bit is the least significant. -/
def bitsToByte (bits : List Bool) : Nat :=
  bits.foldr (fun bit acc => 2 * acc + (if bit then 1 else 0)) 0

/-- Decoder::new. -/
def Decoder.new : Decoder :=
  ⟨[], .Header⟩

/-- Decoder::feed: append the bytes' bits to the incoming buffer. -/
def Decoder.feed (d : Decoder) (data : List Nat) : Decoder :=
  ⟨d.incoming ++ data.flatMap byteToBits, d.state⟩

/-- MIN_ZEROS constant of the sync scan in Decoder::pull. -/
def Decoder.MIN_ZEROS : Nat := 47

/-- Decoder::extract_timestamp. The first N-1 payload bytes contribute their
low 7 bits at offset 7*i; the last byte is anded with the complement (in u32)
of the single bit (max_len % 7) + 2 and placed at offset 7*(N-1). Rust panics
on an empty payload (split_at underflow); callers always pass a nonempty
payload, and the getD defaults below are never used then. -/
def Decoder.extract_timestamp (payload : List Nat) (max_len : Nat) : Nat :=
  let rtail := payload.dropLast
  let head := (payload.getLast?).getD 0
  let ts := rtail.enum.foldl
    (fun acc p => acc ||| (((p.2 &&& 127) <<< (7 * p.1)) % 4294967296)) 0
  let mask := 4294967295 ^^^ (1 <<< ((max_len % 7) + 2))
  ts ||| (((head &&& mask) <<< (7 * rtail.length)) % 4294967296)

/-- u32::from_le_bytes on a 4-byte payload (via getD; callers guard length). -/
def u32_from_le (p : List Nat) : Nat :=
  p.getD 0 0 + p.getD 1 0 * 256 + p.getD 2 0 * 65536 + p.getD 3 0 * 16777216

/-- u16::from_le_bytes on a 2-byte payload (via getD; callers guard length). -/
def u16_from_le (p : List Nat) : Nat :=
  p.getD 0 0 + p.getD 1 0 * 256

/-- Decoder::handle_hardware_source. none models the unreachable! panic for a
discriminator outside {0,1,2} and [8,23] (the header decoder never stores
such a discriminator). The Rust early returns inside the struct literal for
disc 1 are modelled by the nested matches on the two Except values. -/
def Decoder.handle_hardware_source (disc_id : Nat) (payload : List Nat) :
    Option (Except DecoderError TracePacket) :=
  match disc_id with
  | 0 =>
    -- event counter wrap
    if payload.length ≠ 1 then
      some (.error (.InvalidHardwarePacket disc_id payload))
    else
      let b := payload.headD 0
      some (.ok (.EventCounterWrap (b &&& 32 != 0) (b &&& 16 != 0) (b &&& 8 != 0)
        (b &&& 4 != 0) (b &&& 2 != 0) (b &&& 1 != 0)))
  | 1 =>
    -- exception trace
    if payload.length ≠ 2 then
      some (.error (.InvalidHardwarePacket disc_id payload))
    else
      let p0 := payload.headD 0
      let p1 := payload.tail.headD 0
      let exception_number := ((p1 &&& 1) <<< 8) ||| p0
      let function := (p1 >>> 4) &&& 3
      some (match (match exception_number with
            | 1 => Except.ok ExceptionType.Reset
            | 2 => Except.ok ExceptionType.Nmi
            | 3 => Except.ok ExceptionType.HardFault
            | 4 => Except.ok ExceptionType.MemManage
            | 5 => Except.ok ExceptionType.BusFault
            | 6 => Except.ok ExceptionType.UsageFault
            | 11 => Except.ok ExceptionType.SVCall
            | 12 => Except.ok ExceptionType.DebugMonitor
            | 14 => Except.ok ExceptionType.PendSV
            | 15 => Except.ok ExceptionType.SysTick
            | n =>
              if 16 ≤ n then Except.ok (ExceptionType.ExternalInterrupt (n - 16))
              else Except.error (DecoderError.InvalidExceptionTrace exception_number function)) with
        | .error e => .error e
        | .ok exception =>
          match (match function with
              | 1 => Except.ok ExceptionAction.Entered
              | 2 => Except.ok ExceptionAction.Exited
              | 3 => Except.ok ExceptionAction.Returned
              | _ => Except.error (DecoderError.InvalidExceptionTrace exception_number function)) with
          | .error e => .error e
          | .ok action => .ok (TracePacket.ExceptionTrace exception action))
  | 2 =>
    -- PC sample
    match payload with
    | [b0] =>
      if b0 = 0 then some (.ok (.PCSample none))
      else some (.error (.InvalidPCSampleSize payload))
    | [_, _, _, _] => some (.ok (.PCSample (some (u32_from_le payload))))
    | _ => some (.error (.InvalidPCSampleSize payload))
  | disc =>
    if 8 ≤ disc ∧ disc ≤ 23 then
      -- data trace; bitmatch "???t_tccd" on the discriminator
      let t := (disc >>> 3) &&& 3
      let c := (disc >>> 1) &&& 3
      let d := disc &&& 1
      if t = 1 ∧ d = 0 ∧ payload.length = 4 then
        some (.ok (.DataTracePC c (u32_from_le payload)))
      else if t = 1 ∧ d = 1 ∧ payload.length = 2 then
        some (.ok (.DataTraceAddress c (u16_from_le payload)))
      else if t = 2 then
        some (.ok (.DataTraceValue c (if d = 0 then .Write else .Read) payload))
      else
        some (.error (.InvalidHardwarePacket disc payload))
    else
      none

/-- Decoder::decode_header: the ordered bitmatch on the header byte, first
match wins. Arms that enter a payload-accumulating mode return that mode
with Ok none; arms that emit (or fail) leave the state at Header, which is
the state the caller is in. The final catch-all InvalidHeader arm of the
source is dead code: the aaaa_a0ss and aaaa_a1ss templates together cover
every byte. -/
def Decoder.decode_header (header : Nat) :
    (Except DecoderError (Option TracePacket)) × DecoderState :=
  if header = 0 then
    -- "0000_0000": sync lead-in
    (.ok none, .Syncing 8)
  else if header = 112 then
    -- "0111_0000": overflow
    (.ok (some .Overflow), .Header)
  else if header &&& 207 = 192 then
    -- "11rr_0000": local timestamp format 1; tc = r
    let r := (header >>> 4) &&& 3
    (.ok none, .LocalTimestamp
      (match r with
        | 0 => .Sync
        | 1 => .UnknownDelay
        | 2 => .AssocEventDelay
        | _ => .UnknownAssocEventDelay) [])
  else if header &&& 143 = 0 then
    -- "0ttt_0000": local timestamp format 2
    (.ok (some (.LocalTimestamp2 ((header >>> 4) &&& 7))), .Header)
  else if header = 148 then
    -- "1001_0100": global timestamp format 1
    (.ok none, .GlobalTimestamp1 [])
  else if header = 180 then
    -- "1011_0100": global timestamp format 2
    (.ok none, .GlobalTimestamp2 [])
  else if header &&& 143 = 8 then
    -- "0ppp_1000": extension packet
    (.ok (some (.Extension ((header >>> 4) &&& 7))), .Header)
  else if header &&& 4 = 0 then
    -- "aaaa_a0ss": instrumentation packet
    let a := header >>> 3
    let s := header &&& 3
    match (match s with | 1 => some 2 | 2 => some 3 | 3 => some 5 | _ => none) with
    | some size => (.ok none, .Instrumentation a [] (size - 1))
    | none => (.error (.InvalidInstumentationSize a s), .Header)
  else
    -- "aaaa_a1ss": hardware source packet
    let disc_id := header >>> 3
    let s := header &&& 3
    if ¬ disc_id ≤ 2 ∧ ¬ (8 ≤ disc_id ∧ disc_id ≤ 23) then
      (.error (.InvalidHardwareDisc disc_id s), .Header)
    else
      (.ok none, .HardwareSource disc_id [] s)

/-- The state match inside Decoder::process_byte, computing the local value
named packet together with the mutated state (payload pushes happen before
the emission check). none models the unreachable! panic of the Syncing arm
and a panicking handle_hardware_source. -/
def Decoder.process_byte_packet (s : DecoderState) (b : Nat) :
    Option ((Except DecoderError (Option TracePacket)) × DecoderState) :=
  match s with
  | .Header => some (Decoder.decode_header b)
  | .Syncing _ => none
  | .HardwareSource disc_id payload expected_size =>
    let payload' := payload ++ [b]
    if payload'.length = expected_size then
      match Decoder.handle_hardware_source disc_id payload' with
      | some (.ok packet) => some (.ok (some packet), .HardwareSource disc_id payload' expected_size)
      | some (.error e) => some (.error e, .HardwareSource disc_id payload' expected_size)
      | none => none
    else
      some (.ok none, .HardwareSource disc_id payload' expected_size)
  | .LocalTimestamp data_relation payload =>
    let payload' := payload ++ [b]
    if (b >>> 7) &&& 1 = 0 then
      some (.ok (some (.LocalTimestamp1 (Decoder.extract_timestamp payload' 27) data_relation)),
        .LocalTimestamp data_relation payload')
    else
      some (.ok none, .LocalTimestamp data_relation payload')
  | .GlobalTimestamp1 payload =>
    let payload' := payload ++ [b]
    if (b >>> 7) &&& 1 = 0 then
      some (.ok (some (.GlobalTimestamp1 (Decoder.extract_timestamp payload' 25)
          (payload'.getLast?.getD 0 &&& 64 == 1)
          (payload'.getLast?.getD 0 &&& 32 == 1))),
        .GlobalTimestamp1 payload')
    else
      some (.ok none, .GlobalTimestamp1 payload')
  | .GlobalTimestamp2 payload =>
    let payload' := payload ++ [b]
    if (b >>> 7) &&& 1 = 0 then
      -- the match on payload.len() picks max_len 47-26 or 63-26, any other
      -- length returns InvalidGTS2Size before extraction
      match payload'.length with
      | 4 => some (.ok (some (.GlobalTimestamp2 (Decoder.extract_timestamp payload' (47 - 26)))),
          .GlobalTimestamp2 payload')
      | 6 => some (.ok (some (.GlobalTimestamp2 (Decoder.extract_timestamp payload' (63 - 26)))),
          .GlobalTimestamp2 payload')
      | _ => some (.error (.InvalidGTS2Size payload'), .GlobalTimestamp2 payload')
    else
      some (.ok none, .GlobalTimestamp2 payload')
  | .Instrumentation port payload expected_size =>
    let payload' := payload ++ [b]
    if payload'.length = expected_size then
      some (.ok (some (.Instrumentation port payload')), .Instrumentation port payload' expected_size)
    else
      some (.ok none, .Instrumentation port payload' expected_size)

/-- Decoder::process_byte: run the state match, then the unconditional
post-step of the source resets the state to Header whenever an Ok(Some(..))
packet was produced. -/
def Decoder.process_byte (s : DecoderState) (b : Nat) :
    Option ((Except DecoderError (Option TracePacket)) × DecoderState) :=
  match Decoder.process_byte_packet s b with
  | some (.ok (some packet), _) => some (.ok (some packet), .Header)
  | r => r

/-- The bit-at-a-time sync scan inside Decoder::pull. entry is the count
stored in the Syncing state when pull was entered: the Rust code binds count
by copy from the state and never writes the incremented copy back, so on
buffer exhaustion (and on the error return) the stored state keeps the entry
count. -/
def Decoder.syncLoop (entry count : Nat) (bits : List Bool) :
    (Except DecoderError (Option TracePacket)) × Decoder :=
  match bits with
  | [] => (.ok none, ⟨[], .Syncing entry⟩)
  | bit :: rest =>
    if bit = false ∧ count < Decoder.MIN_ZEROS then
      Decoder.syncLoop entry (count + 1) rest
    else if bit = true ∧ Decoder.MIN_ZEROS ≤ count then
      (.ok (some .Sync), ⟨rest, .Header⟩)
    else
      (.error (.InvalidSyncSize count), ⟨rest, .Syncing entry⟩)

/-- The loop of Decoder::pull over the state and remaining bits: while at
least 8 bits remain and the state is not Syncing, pop a byte and process it,
stopping at the first packet or error; in Syncing state scan bits one at a
time. -/
def Decoder.pullBits (s : DecoderState) (bits : List Bool) :
    Option ((Except DecoderError (Option TracePacket)) × Decoder) :=
  match s with
  | .Syncing c => some (Decoder.syncLoop c c bits)
  | s =>
    match bits with
    | b0 :: b1 :: b2 :: b3 :: b4 :: b5 :: b6 :: b7 :: rest =>
      match Decoder.process_byte s (bitsToByte [b0, b1, b2, b3, b4, b5, b6, b7]) with
      | none => none
      | some (.ok none, s') => Decoder.pullBits s' rest
      | some (r, s') => some (r, ⟨rest, s'⟩)
    | _ => some (.ok none, ⟨bits, s⟩)

/-- Decoder::pull. The returned Decoder is the post-call state of self. -/
def Decoder.pull (d : Decoder) :
    Option ((Except DecoderError (Option TracePacket)) × Decoder) :=
  Decoder.pullBits d.state d.incoming

/-- Drive a decoder one byte per feed call with one pull after each feed,
collecting the pull results; the byte-at-a-time side of claim C6. -/
def Decoder.pullPerByte (d : Decoder) (bytes : List Nat) :
    Option (List (Except DecoderError (Option TracePacket)) × Decoder) :=
  match bytes with
  | [] => some ([], d)
  | b :: rest =>
    match (d.feed [b]).pull with
    | none => none
    | some (r, d') =>
      match Decoder.pullPerByte d' rest with
      | none => none
      | some (rs, d'') => some (r :: rs, d'')

/-- The byte sequence encoding n zero bits, then a single one bit, then zero
padding up to a byte boundary (bits are consumed Lsb0). -/
def mkSyncInput (n : Nat) : List Nat :=
  List.replicate (n / 8) 0 ++ [1 <<< (n % 8)]

/-- Claim-side exception-number table, following the spec wording: the fixed
ARMv7-M exception set, with numbers at least 16 mapping to
ExternalInterrupt(number - 16) and anything else unmapped. -/
def specExceptionKind (n : Nat) : Option ExceptionType :=
  match n with
  | 1 => some .Reset
  | 2 => some .Nmi
  | 3 => some .HardFault
  | 4 => some .MemManage
  | 5 => some .BusFault
  | 6 => some .UsageFault
  | 11 => some .SVCall
  | 12 => some .DebugMonitor
  | 14 => some .PendSV
  | 15 => some .SysTick
  | n => if 16 ≤ n then some (.ExternalInterrupt (n - 16)) else none

/-- Claim-side function mapping, following the spec wording: 01 Entered,
10 Exited, 11 Returned, anything else unmapped. -/
def specExceptionAction (f : Nat) : Option ExceptionAction :=
  match f with
  | 1 => some .Entered
  | 2 => some .Exited
  | 3 => some .Returned
  | _ => none

/-! Helper lemmas. -/

set_option maxRecDepth 4096 in
/-- Loading eight Lsb0 bits of a byte value below 256 gives the byte back. -/
lemma bitsToByte_byteToBits : ∀ b, b < 256 → bitsToByte (byteToBits b) = b := by decide

/-- byteToBits always produces eight bits. -/
lemma byteToBits_length (b : Nat) : (byteToBits b).length = 8 := by
  simp [byteToBits]

/-- Whenever process_byte produces a packet, the resulting state is Header:
the source's unconditional post-step. -/
lemma process_byte_emit_header (s : DecoderState) (b : Nat)
    (r : Except DecoderError (Option TracePacket)) (st : DecoderState) (p : TracePacket)
    (h : Decoder.process_byte s b = some (r, st)) (hp : r = .ok (some p)) :
    st = .Header := by
  subst hp
  unfold Decoder.process_byte at h
  rcases hpp : Decoder.process_byte_packet s b with _ | ⟨err | _ | q, st'⟩ <;>
      rw [hpp] at h <;> simp_all

/-- Whenever the sync scan emits a packet, the resulting state is Header. -/
lemma syncLoop_emit_header : ∀ (bits : List Bool) (entry count : Nat) (p : TracePacket)
    (d' : Decoder), Decoder.syncLoop entry count bits = (.ok (some p), d') →
    d'.state = .Header := by
  intro bits
  induction bits with
  | nil =>
    intro entry count p d' h
    simp [Decoder.syncLoop] at h
  | cons bit rest ih =>
    intro entry count p d' h
    unfold Decoder.syncLoop at h
    split at h
    · exact ih entry (count + 1) p d' h
    · split at h <;> simp_all
      exact h.2.symm ▸ rfl


/-- Whenever pullBits produces a packet, the resulting decoder state is
Header. -/
lemma pullBits_emit_header (s : DecoderState) (bits : List Bool) :
    ∀ (p : TracePacket) (d' : Decoder),
      Decoder.pullBits s bits = some (.ok (some p), d') → d'.state = .Header := by
  induction s, bits using Decoder.pullBits.induct with
  | case1 bits c =>
    intro p d' h
    simp only [Decoder.pullBits] at h
    exact syncLoop_emit_header bits c c p d' (Option.some_injective _ h)
  | case2 s hns b0 b1 b2 b3 b4 b5 b6 b7 rest hstep =>
    intro p d' h
    rcases s with _ | c | ⟨port, pl, es⟩ | ⟨di, pl, es⟩ | ⟨dr, pl⟩ | pl | pl <;>
      first
      | exact absurd rfl (hns _)
      | (simp only [Decoder.pullBits] at h; rw [hstep] at h; simp at h)
  | case3 s hns b0 b1 b2 b3 b4 b5 b6 b7 rest s' hstep ih =>
    intro p d' h
    rcases s with _ | c | ⟨port, pl, es⟩ | ⟨di, pl, es⟩ | ⟨dr, pl⟩ | pl | pl <;>
      first
      | exact absurd rfl (hns _)
      | (simp only [Decoder.pullBits] at h; rw [hstep] at h; exact ih p d' h)
  | case4 s hns b0 b1 b2 b3 b4 b5 b6 b7 rest r s' hne hstep =>
    intro p d' h
    rcases r with e | _ | q
    · rcases s with _ | c | ⟨port, pl, es⟩ | ⟨di, pl, es⟩ | ⟨dr, pl⟩ | pl | pl <;>
        first
        | exact absurd rfl (hns _)
        | (simp only [Decoder.pullBits] at h; rw [hstep] at h; simp at h)
    · exact absurd rfl hne
    · have hs' : s' = .Header := process_byte_emit_header s _ _ s' q hstep rfl
      rcases s with _ | c | ⟨port, pl, es⟩ | ⟨di, pl, es⟩ | ⟨dr, pl⟩ | pl | pl <;>
        first
        | exact absurd rfl (hns _)
        | (simp only [Decoder.pullBits] at h; rw [hstep] at h; simp at h;
           rw [← h.2]; exact hs')
  | case5 bits s hns hcons =>
    intro p d' h
    rcases hbits : bits with _ | ⟨x0, _ | ⟨x1, _ | ⟨x2, _ | ⟨x3, _ | ⟨x4, _ | ⟨x5, _ | ⟨x6, _ | ⟨x7, tl⟩⟩⟩⟩⟩⟩⟩⟩ <;>
      subst hbits <;>
      rcases s with _ | c | ⟨port, pl, es⟩ | ⟨di, pl, es⟩ | ⟨dr, pl⟩ | pl | pl <;>
      first
      | exact absurd rfl (hns _)
      | exact absurd rfl (hcons x0 x1 x2 x3 x4 x5 x6 x7 tl)
      | (simp only [Decoder.pullBits] at h; simp at h)

/-- With fewer than 8 buffered bits and a non-Syncing state, pullBits returns
Ok none and changes nothing. -/
lemma pullBits_short (s : DecoderState) (bits : List Bool)
    (hs : ∀ c, s ≠ .Syncing c) (hlen : bits.length < 8) :
    Decoder.pullBits s bits = some (.ok none, ⟨bits, s⟩) := by
  rcases hbits : bits with _ | ⟨x0, _ | ⟨x1, _ | ⟨x2, _ | ⟨x3, _ | ⟨x4, _ | ⟨x5, _ | ⟨x6, _ | ⟨x7, tl⟩⟩⟩⟩⟩⟩⟩⟩ <;>
    subst hbits <;>
    rcases s with _ | c | ⟨port, pl, es⟩ | ⟨di, pl, es⟩ | ⟨dr, pl⟩ | pl | pl <;>
    first
    | exact absurd rfl (hs _)
    | (exfalso; simp only [List.length_cons] at hlen; omega)
    | simp [Decoder.pullBits]

/-- A HardwareSource state with target length 0 consumes any byte without
output: the payload length after a push is never 0. -/
lemma process_byte_hws0 (disc : Nat) (p : List Nat) (b : Nat) :
    Decoder.process_byte (.HardwareSource disc p 0) b =
      some (.ok none, .HardwareSource disc (p ++ [b]) 0) := by
  simp [Decoder.process_byte, Decoder.process_byte_packet]

/-- Pulling any whole-byte buffer in a HardwareSource state with target
length 0 consumes everything, emits nothing, and stays in that mode with the
bytes appended to the payload. -/
lemma pullBits_hws0 : ∀ (bs : List Nat) (disc : Nat) (p : List Nat),
    (∀ b ∈ bs, b < 256) →
    Decoder.pullBits (.HardwareSource disc p 0) (bs.flatMap byteToBits) =
      some (.ok none, ⟨[], .HardwareSource disc (p ++ bs) 0⟩) := by
  intro bs
  induction bs with
  | nil =>
    intro disc p _
    simp [Decoder.pullBits]
  | cons b rest ih =>
    intro disc p hlt
    have hb : b < 256 := hlt b (List.mem_cons_self b rest)
    have h8 : byteToBits b = [b.testBit 0, b.testBit 1, b.testBit 2, b.testBit 3,
        b.testBit 4, b.testBit 5, b.testBit 6, b.testBit 7] := by
      simp [byteToBits, List.range_succ]
    have hbyte : bitsToByte [b.testBit 0, b.testBit 1, b.testBit 2, b.testBit 3,
        b.testBit 4, b.testBit 5, b.testBit 6, b.testBit 7] = b := by
      have hrt := bitsToByte_byteToBits b hb
      rwa [h8] at hrt
    rw [List.flatMap_cons, h8]
    simp only [List.cons_append, List.nil_append, List.append_eq, Decoder.pullBits, hbyte,
      process_byte_hws0]
    rw [ih disc (p ++ [b]) (fun x hx => hlt x (List.mem_cons_of_mem b hx))]
    simp

/-! Claim theorems. -/

/-- Claim C1 (code bug witness): a GlobalTimestampLow final payload byte 0x60
has bits 5 and 6 set, yet the emitted packet carries clkch = false and
wrap = false, because the source compares the masked byte with 1 instead of
testing it against 0. The claimed behavior would be wrap = true and
clkch = true. -/
theorem c1_flags_always_false :
    (Decoder.new.feed [148, 96]).pull =
      some (.ok (some (.GlobalTimestamp1 32 false false)), ⟨[], .Header⟩) ∧
    96 &&& 32 ≠ 0 ∧ 96 &&& 64 ≠ 0 := by decide

/-- Claim C2 (code bug witness): for max_len = 25 the mask clears only bit 6
of the final byte, so bit 5 (value 32) leaks into the reconstructed ts: the
one-byte payload 0x20 decodes to 32, while the claim requires the status
bits to contribute nothing (ts = 0). -/
theorem c2_bit5_contributes :
    Decoder.extract_timestamp [32] 25 = 32 ∧
    (Decoder.new.feed [148, 32]).pull =
      some (.ok (some (.GlobalTimestamp1 32 false false)), ⟨[], .Header⟩) := by decide

/-- Claim C3 (code bug witness): 48 zero bits followed by a one bit (bytes
0x00 x6 then 0x01) make pull fail with InvalidSyncSize 47 on the 48th zero,
instead of absorbing the extra zero and yielding Sync at the one bit as the
claim requires. -/
theorem c3_zero_after_threshold_errors :
    (Decoder.new.feed [0, 0, 0, 0, 0, 0, 1]).pull =
      some (.error (.InvalidSyncSize 47), ⟨true :: List.replicate 7 false, .Syncing 8⟩) := by decide

/-- Claim C4 counterexample: zero zero-bits followed by a one bit (byte
0x01, padded with zeros) is fewer than 47 zero bits followed by a one, yet
pull returns Ok none (entering Instrumentation mode) rather than any
InvalidSyncSize error. -/
theorem c4_counterexample :
    (Decoder.new.feed [1]).pull = some (.ok none, ⟨[], .Instrumentation 0 [] 1⟩) ∧
    (Decoder.new.feed [1]).pull ≠ some (.error (.InvalidSyncSize 0), ⟨[], .Instrumentation 0 [] 1⟩) := by
  decide

set_option maxRecDepth 8192 in
/-- Claim C4 as amended: from a fresh decoder, exactly 47 zero bits followed
by a one bit yield exactly one Sync packet and return the engine to Header
mode; n zero bits followed by a one bit (zero-padded to a byte boundary)
with 8 <= n < 47 yield InvalidSyncSize n. For n < 8 the first byte is not
the sync lead-in 0x00, so the engine never enters Syncing mode and no
InvalidSyncSize error is produced (see the counterexample). -/
theorem c4_amended :
    ((Decoder.new.feed (mkSyncInput 47)).pull = some (.ok (some .Sync), ⟨[], .Header⟩) ∧
      Decoder.pull ⟨[], .Header⟩ = some (.ok none, ⟨[], .Header⟩)) ∧
    (∀ n, n < 47 → 8 ≤ n →
      (Decoder.new.feed (mkSyncInput n)).pull =
        some (.error (.InvalidSyncSize n), ⟨List.replicate (7 - n % 8) false, .Syncing 8⟩)) := by
  constructor
  · decide
  · intro n hlt hge
    interval_cases n <;> decide

/-- Witness for C4 at n = 20: three bytes 0x00 0x00 0x10 encode 20 zero
bits, a one bit and three padding zeros; pull yields InvalidSyncSize 20. -/
theorem c4_witness :
    (Decoder.new.feed (mkSyncInput 20)).pull =
      some (.error (.InvalidSyncSize 20), ⟨List.replicate (7 - 20 % 8) false, .Syncing 8⟩) :=
  c4_amended.2 20 (by decide) (by decide)

/-- Claim C5 counterexample: discriminator 18 lies in [8, 23], but the
header byte for it with size bits 00 is 18*8+4 = 0x94, which the ordered
bitmatch classifies as the fixed GlobalTimestamp1 header, not as a hardware
source header; the engine enters GlobalTimestamp1 mode. -/
theorem c5_counterexample :
    (8 ≤ 18 ∧ 18 ≤ 23) ∧
    Decoder.decode_header (18 * 8 + 4) = (.ok none, .GlobalTimestamp1 []) ∧
    Decoder.decode_header (18 * 8 + 4) ≠ (.ok none, .HardwareSource 18 [] 0) := by decide

/-- Claim C5 as amended: a hardware-source header with size bits 00 and
discriminator in the set {0,1,2} or [8,23] minus {18, 22} (those two collide
with the fixed global-timestamp headers 0x94 and 0xB4, which match first)
puts the engine in HardwareSource mode with target length 0, and that mode
never finalizes: every processed byte returns Ok none and keeps the mode,
so the engine never returns to Header from it. -/
theorem c5_amended :
    (∀ (disc : Nat) (p : List Nat) (b : Nat),
      Decoder.process_byte (.HardwareSource disc p 0) b =
        some (.ok none, .HardwareSource disc (p ++ [b]) 0)) ∧
    (∀ (a : Nat), a < 3 ∨ (8 ≤ a ∧ a ≤ 23) → a ≠ 18 → a ≠ 22 →
      ∀ (bs : List Nat), (∀ b ∈ bs, b < 256) →
      (Decoder.new.feed ((a * 8 + 4) :: bs)).pull =
        some (.ok none, ⟨[], .HardwareSource a bs 0⟩)) := by
  constructor
  · exact process_byte_hws0
  · intro a ha h18 h22 bs hbs
    have hdr : Decoder.decode_header (a * 8 + 4) = (.ok none, .HardwareSource a [] 0) := by
      rcases ha with h3 | ⟨h8a, h23⟩
      · interval_cases a <;> decide
      · interval_cases a <;> first
          | exact absurd rfl h18
          | exact absurd rfl h22
          | decide
    have hb : a * 8 + 4 < 256 := by
      rcases ha with h | ⟨h1, h2⟩ <;> omega
    have h8 : byteToBits (a * 8 + 4) = [(a * 8 + 4).testBit 0, (a * 8 + 4).testBit 1,
        (a * 8 + 4).testBit 2, (a * 8 + 4).testBit 3, (a * 8 + 4).testBit 4,
        (a * 8 + 4).testBit 5, (a * 8 + 4).testBit 6, (a * 8 + 4).testBit 7] := by
      simp [byteToBits, List.range_succ]
    have hbyte : bitsToByte [(a * 8 + 4).testBit 0, (a * 8 + 4).testBit 1,
        (a * 8 + 4).testBit 2, (a * 8 + 4).testBit 3, (a * 8 + 4).testBit 4,
        (a * 8 + 4).testBit 5, (a * 8 + 4).testBit 6, (a * 8 + 4).testBit 7] = a * 8 + 4 := by
      have hrt := bitsToByte_byteToBits (a * 8 + 4) hb
      rwa [h8] at hrt
    have hpb : Decoder.process_byte .Header (a * 8 + 4) =
        some (.ok none, .HardwareSource a [] 0) := by
      simp [Decoder.process_byte, Decoder.process_byte_packet, hdr]
    simp only [Decoder.pull, Decoder.feed, Decoder.new, List.nil_append, List.flatMap_cons, h8]
    simp only [List.cons_append, List.nil_append, List.append_eq, Decoder.pullBits, hbyte, hpb]
    rw [pullBits_hws0 bs a [] hbs]
    rfl

/-- Witness for C5: discriminator 0 with size bits 00 (header byte 0x04)
followed by two arbitrary bytes; the engine consumes them and stays in
HardwareSource mode with target 0. -/
theorem c5_witness :
    Decoder.process_byte (.HardwareSource 0 [] 0) 7 = some (.ok none, .HardwareSource 0 [7] 0) ∧
    (Decoder.new.feed [4, 5, 7]).pull = some (.ok none, ⟨[], .HardwareSource 0 [5, 7] 0⟩) :=
  ⟨c5_amended.1 0 [] 7,
   c5_amended.2 0 (Or.inl (by decide)) (by decide) (by decide) [5, 7] (by decide)⟩

/-- Claim C6 (code bug witness): the 6-byte sequence of 47 zero bits and a
final one bit decodes to one Sync packet when fed in a single call, but fed
one byte per feed call with a pull after each byte the final pull fails with
InvalidSyncSize 15: the sync scan's zero-count is a local copy that is not
written back to the state when the buffer runs out, although the scanned
zero bits were consumed. -/
theorem c6_chunking_dependence :
    (Decoder.new.feed [0, 0, 0, 0, 0, 128]).pull =
      some (.ok (some .Sync), ⟨[], .Header⟩) ∧
    Decoder.pullPerByte Decoder.new [0, 0, 0, 0, 0, 128] =
      some ([.ok none, .ok none, .ok none, .ok none, .ok none,
        .error (.InvalidSyncSize 15)], ⟨[], .Syncing 8⟩) := by decide

/-- Claim C7: whenever a byte-processing step (process_byte, in any mode)
or a whole pull produces a packet, the decoder state afterwards is Header. -/
theorem c7_emission_resets_to_header :
    (∀ (s : DecoderState) (b : Nat) (r : Except DecoderError (Option TracePacket))
        (st : DecoderState) (p : TracePacket),
      Decoder.process_byte s b = some (r, st) → r = .ok (some p) → st = .Header) ∧
    (∀ (d : Decoder) (p : TracePacket) (d' : Decoder),
      d.pull = some (.ok (some p), d') → d'.state = .Header) :=
  ⟨fun s b r st p h hp => process_byte_emit_header s b r st p h hp,
   fun d p d' h => pullBits_emit_header d.state d.incoming p d' h⟩

/-- Witness for C7: the Overflow header 0x70 emits a packet and the decoder
lands in Header mode. -/
theorem c7_witness : (Decoder.mk [] DecoderState.Header).state = DecoderState.Header :=
  c7_emission_resets_to_header.2 ⟨byteToBits 112, .Header⟩ .Overflow ⟨[], .Header⟩ (by decide)

/-- Claim C9: the timestamp codec on bytes 0x81, 0x02 with max_len 27 gives
(0x81 masked to its low 7 bits) at offset 0 or-ed with 0x02 shifted left by
7, that is 257. -/
theorem c9_codec_example : Decoder.extract_timestamp [129, 2] 27 = 257 := by decide

/-- Claim C10: with fewer than 8 buffered bits and any non-Syncing mode,
pull returns Ok none and leaves the decoder (mode and buffer) unchanged. -/
theorem c10_pull_nothing (d : Decoder) (hs : ∀ c, d.state ≠ .Syncing c)
    (hlen : d.incoming.length < 8) :
    d.pull = some (.ok none, d) := by
  obtain ⟨bits, s⟩ := d
  exact pullBits_short s bits hs hlen

/-- Witness for C10: a decoder in GlobalTimestamp1 mode with 7 buffered
bits. -/
theorem c10_witness :
    Decoder.pull ⟨List.replicate 7 false, .GlobalTimestamp1 [5]⟩ =
      some (.ok none, ⟨List.replicate 7 false, .GlobalTimestamp1 [5]⟩) :=
  c10_pull_nothing ⟨List.replicate 7 false, .GlobalTimestamp1 [5]⟩
    (fun c h => DecoderState.noConfusion h) (by decide)

/-- Claim C8: for a hardware-source packet with discriminator 1 and a 2-byte
payload, the exception number is bit 0 of byte 1 stacked as bit 8 above
byte 0 and the function is bits 5:4 of byte 1; the number maps through the
fixed ARMv7-M exception table (16 and above to ExternalInterrupt(number-16))
and the function through Entered/Exited/Returned, with any unmapped number
or function producing InvalidExceptionTrace; in particular payload
0x0F, 0x10 yields ExceptionTrace SysTick Entered. -/
theorem c8_exception_trace :
    (∀ b0 b1 : Nat,
      Decoder.handle_hardware_source 1 [b0, b1] =
        some (match specExceptionKind (((b1 &&& 1) <<< 8) ||| b0),
                    specExceptionAction ((b1 >>> 4) &&& 3) with
          | some e, some a => .ok (.ExceptionTrace e a)
          | _, _ => .error (.InvalidExceptionTrace (((b1 &&& 1) <<< 8) ||| b0)
              ((b1 >>> 4) &&& 3)))) ∧
    Decoder.handle_hardware_source 1 [15, 16] =
      some (.ok (.ExceptionTrace .SysTick .Entered)) := by
  constructor
  · intro b0 b1
    simp only [Decoder.handle_hardware_source, List.tail_cons, List.headD_cons]
    rw [if_neg (by simp)]
    generalize (b1 &&& 1) <<< 8 ||| b0 = n
    generalize b1 >>> 4 &&& 3 = f
    rcases n with _|_|_|_|_|_|_|_|_|_|_|_|_|_|_|_|n <;>
      rcases f with _|_|_|_|f <;>
      simp [specExceptionKind, specExceptionAction]
  · decide
